import Mathlib

/-!
Shallow embedding of the balancebeam load-balancing proxy core
(src/proj-2/balancebeam/src/main.rs) and proofs about its behavior.

The async Rust code is modelled as pure Lean functions: the shared
`HashMap<String, usize>` rate map becomes an association list with the
first matching key authoritative; the per-upstream `Arc<RwLock<bool>>`
liveness flag becomes a plain `Bool` field; network and RNG effects
become explicit oracle arguments (lists of outcomes consumed in order);
a Rust `.unwrap()` panic becomes the `none` case of an `Option` result;
a background task's timing behavior becomes an explicit trace of actions.
-/

set_option autoImplicit false

namespace Balancebeam

/-- Upstream server record (struct `Upstream`, main.rs lines 48-52): an
address together with its liveness flag. -/
structure Upstream where
  address : String
  alive : Bool
deriving DecidableEq, Repr

/-- `Upstream::new` (main.rs 55-60): a fresh upstream starts with its
liveness flag set to `true`. -/
def Upstream.new (address : String) : Upstream :=
  { address := address, alive := true }

/-- `Upstream::new_vec` (main.rs 62-68): build one upstream per address. -/
def Upstream.new_vec (addresses : List String) : List Upstream :=
  addresses.map Upstream.new

/-- `Upstream::get_addr` (main.rs 70-72). -/
def Upstream.get_addr (u : Upstream) : String :=
  u.address

/-- `Upstream::is_alive` (main.rs 74-76): read the liveness flag. -/
def Upstream.is_alive (u : Upstream) : Bool :=
  u.alive

/-- `Upstream::set_alive` (main.rs 78-81): write the liveness flag. -/
def Upstream.set_alive (u : Upstream) (status : Bool) : Upstream :=
  { u with alive := status }

/-- Lookup in the rate map (`HashMap::get` / `get_mut` on
`state.rates`): the value stored under `ip`, if any. -/
def ratesGet (rates : List (String × Nat)) (ip : String) : Option Nat :=
  match rates with
  | [] => none
  | (k, v) :: rest => if k == ip then some v else ratesGet rest ip

/-- Overwrite in the rate map (the effect of `*rate += 1` through
`HashMap::get_mut`): replace the value stored under `ip`. -/
def ratesSet (rates : List (String × Nat)) (ip : String) (v : Nat) :
    List (String × Nat) :=
  match rates with
  | [] => []
  | (k, w) :: rest =>
      if k == ip then (k, v) :: rest else (k, w) :: ratesSet rest ip v

/-- `HashMap::contains_key` on the rate map. -/
def ratesContains (rates : List (String × Nat)) (ip : String) : Bool :=
  match rates with
  | [] => false
  | (k, _) :: rest => if k == ip then true else ratesContains rest ip

/-- Reset of every entry of the rate map to 0 (main.rs 287-289:
`for rate in state.rates.write().await.values_mut() ... *rate = 0`). -/
def ratesResetAll (rates : List (String × Nat)) : List (String × Nat) :=
  rates.map (fun p => (p.1, 0))

/-- Proxy state (struct `ProxyState`, main.rs 88-100). -/
structure ProxyState where
  active_health_check_interval : Nat
  active_health_check_path : String
  max_requests_per_minute : Nat
  upstreams : List Upstream
  rates : List (String × Nat)
deriving DecidableEq, Repr

/-- `update_rate_and_check` (main.rs 275-283): look the client IP up in
the rate map (`unwrap` panics when absent, modelled as `none`), add one
to its count, and admit unless the new count exceeds the threshold. -/
def update_rate_and_check (state : ProxyState) (client_ip : String) :
    Option (Bool × ProxyState) :=
  match ratesGet state.rates client_ip with
  | none => none
  | some rate0 =>
      let rate := rate0 + 1
      let admitted :=
        if rate > state.max_requests_per_minute then false else true
      some (admitted, { state with rates := ratesSet state.rates client_ip rate })

/-- The rate-limit gate of `handle_connection` (main.rs 350):
`state.max_requests_per_minute > 0 && !update_rate_and_check(...)`.
With threshold 0 the `&&` short-circuits: the limiter is never consulted
and the request is admitted with the state untouched. -/
def rate_gate (state : ProxyState) (client_ip : String) :
    Option (Bool × ProxyState) :=
  if state.max_requests_per_minute > 0 then
    update_rate_and_check state client_ip
  else
    some (true, state)

/-- Actions performed by the window-reset background task. -/
inductive RateAction where
  | sleep (secs : Nat)
  | resetAll
deriving DecidableEq, Repr

/-- Action trace of `reset_rates_with_fixed_window` (main.rs 285-290):
the task body is `delay_for(60 s)` followed by one pass setting every
count to 0, and then the function returns — there is no surrounding
loop, so the trace is finite with exactly these two actions. -/
def reset_rates_with_fixed_window_trace : List RateAction :=
  [RateAction.sleep 60, RateAction.resetAll]

/-- State effect of the single reset pass of
`reset_rates_with_fixed_window` (main.rs 287-289). -/
def reset_rates_with_fixed_window (rates : List (String × Nat)) :
    List (String × Nat) :=
  ratesResetAll rates

/-- Client-IP registration at the top of `handle_connection`
(main.rs 297-299): insert a zero count for the client IP when absent. -/
def register_client (rates : List (String × Nat)) (ip : String) :
    List (String × Nat) :=
  if ratesContains rates ip then rates else (ip, 0) :: rates

/-- Outcome of one health-check probe against one upstream, the
environment's answer to the network calls in main.rs 169-216. -/
inductive ProbeOutcome where
  | connectFailed
  | writeFailed
  | readFailed
  | response (status : Nat)
deriving DecidableEq, Repr

/-- Per-upstream flag written by one probe of `active_health_check`
(main.rs 169-216): connect failure, write failure and read failure mark
dead; a well-formed response marks alive exactly when its status is
200. -/
def probe_mark (outcome : ProbeOutcome) : Bool :=
  match outcome with
  | ProbeOutcome.connectFailed => false
  | ProbeOutcome.writeFailed => false
  | ProbeOutcome.readFailed => false
  | ProbeOutcome.response status => if status == 200 then true else false

/-- One full probe cycle of `active_health_check` (main.rs 167-217): the
loop walks the upstreams in registration order and sets each upstream's
flag from its own probe outcome. -/
def active_health_check_cycle (upstreams : List Upstream)
    (outcomes : List ProbeOutcome) : List Upstream :=
  (upstreams.zip outcomes).map (fun p => p.1.set_alive (probe_mark p.2))

/-- Actions of the `active_health_check` task (main.rs 161-219). -/
inductive HealthEvent where
  | sleep (secs : Nat)
  | probeCycle
deriving DecidableEq, Repr

/-- Action trace of the first `n` iterations of `active_health_check`
(main.rs 162-166): each iteration of the unending loop first suspends
for the configured interval and only then probes the upstreams. -/
def active_health_check_trace (interval : Nat) : Nat → List HealthEvent
  | 0 => []
  | n + 1 =>
      HealthEvent.sleep interval :: HealthEvent.probeCycle ::
        active_health_check_trace interval n

/-- `exist_alive_upstream` (main.rs 221-230): count the upstreams whose
flag is alive; `none` when the count is 0, otherwise the count. -/
def exist_alive_upstream (upstreams : List Upstream) : Option Nat :=
  match upstreams.foldl (fun cnt u => cnt + (if u.is_alive then 1 else 0)) 0 with
  | 0 => none
  | c => some c

/-- Result of `connect_to_upstream`: either a connection to the upstream
at a given index, or the all-upstreams-down error. -/
inductive ConnectResult where
  | ok (idx : Nat)
  | err
deriving DecidableEq, Repr

/-- `connect_to_upstream` (main.rs 232-260).  Each loop iteration checks
`exist_alive_upstream` first and fails when no upstream is flagged
alive.  Otherwise it consumes one oracle step: the RNG draw
`gen_range(0, len)` together with the outcome the network would give for
a connect attempt.  A draw landing on a dead upstream retries; a live
draw whose connect fails marks that upstream dead and retries; a live
draw whose connect succeeds returns it.  `none` models a run that is
still looping when the oracle steps run out (and the impossible
out-of-range RNG draw). -/
def connect_to_upstream (upstreams : List Upstream) :
    List (Nat × Bool) → Option (ConnectResult × List Upstream)
  | [] =>
    match exist_alive_upstream upstreams with
    | none => some (ConnectResult.err, upstreams)
    | some _ => none
  | (upstream_idx, connOk) :: rest =>
    match exist_alive_upstream upstreams with
    | none => some (ConnectResult.err, upstreams)
    | some _ =>
      match upstreams.get? upstream_idx with
      | none => none
      | some upstream =>
        if upstream.is_alive = false then
          connect_to_upstream upstreams rest
        else if connOk then
          some (ConnectResult.ok upstream_idx, upstreams)
        else
          connect_to_upstream
            (upstreams.set upstream_idx (upstream.set_alive false)) rest

/-- Client-visible events of `handle_connection`. -/
inductive Event where
  | respond (status : Nat)
  | forwardRequest
  | relayResponse
deriving DecidableEq, Repr

/-- What the serving loop does after one request: read the next request,
or stop serving this connection. -/
inductive LoopControl where
  | nextRequest
  | exitLoop
deriving DecidableEq, Repr

/-- Error cases of `request::read_from_stream` as consumed by
`handle_connection` (main.rs 316-341). -/
inductive RequestError where
  | incompleteRequest (bytes : Nat)
  | malformedRequest
  | invalidContentLength
  | contentLengthMismatch
  | requestBodyTooLarge
  | connectionError
deriving DecidableEq, Repr

/-- Result of reading one client request. -/
inductive ReadResult where
  | ok
  | err (e : RequestError)
deriving DecidableEq, Repr

/-- Status chosen by the error-response match in `handle_connection`
(main.rs 330-337): 400 for incomplete, malformed and content-length
defects, 413 for an oversized body, 503 for a connection error (an arm
the earlier `ConnectionError` catch makes unreachable). -/
def error_status (e : RequestError) : Nat :=
  match e with
  | RequestError.incompleteRequest _ => 400
  | RequestError.malformedRequest => 400
  | RequestError.invalidContentLength => 400
  | RequestError.contentLengthMismatch => 400
  | RequestError.requestBodyTooLarge => 413
  | RequestError.connectionError => 503

/-- The connection-setup phase of `handle_connection` (main.rs 292-310):
register the client IP in the rate map, then ask `connect_to_upstream`
for a live upstream; on its error send a BAD_GATEWAY (502) response and
close, otherwise proceed with the chosen upstream index. -/
def handle_connection_setup (state : ProxyState) (client_ip : String)
    (steps : List (Nat × Bool)) :
    Option (List Event × Option Nat × ProxyState) :=
  let state1 := { state with rates := register_client state.rates client_ip }
  match connect_to_upstream state1.upstreams steps with
  | none => none
  | some (ConnectResult.err, us) =>
      some ([Event.respond 502], none, { state1 with upstreams := us })
  | some (ConnectResult.ok idx, us) =>
      some ([], some idx, { state1 with upstreams := us })

/-- One iteration of the serving loop of `handle_connection`
(main.rs 314-389), driven by the outcome of reading the client request
and oracles for the upstream write and read.  An end-of-stream read
(`IncompleteRequest(0)`) or a client connection error exits the loop
with no response; any other read error answers with `error_status` and
continues; on a good request the rate gate may answer 429 and continue;
otherwise the request is forwarded, and a 502 is sent (and the loop
exits) when the upstream write or read fails, else the upstream response
is relayed and the loop continues.  `none` models the `unwrap` panic
inside `update_rate_and_check`. -/
def serve_step (state : ProxyState) (client_ip : String) (read : ReadResult)
    (upstreamWriteOk upstreamReadOk : Bool) :
    Option (List Event × LoopControl × ProxyState) :=
  match read with
  | ReadResult.err (RequestError.incompleteRequest 0) =>
      some ([], LoopControl.exitLoop, state)
  | ReadResult.err RequestError.connectionError =>
      some ([], LoopControl.exitLoop, state)
  | ReadResult.err e =>
      some ([Event.respond (error_status e)], LoopControl.nextRequest, state)
  | ReadResult.ok =>
      match rate_gate state client_ip with
      | none => none
      | some (admitted, state1) =>
          if admitted = false then
            some ([Event.respond 429], LoopControl.nextRequest, state1)
          else if upstreamWriteOk = false then
            some ([Event.respond 502], LoopControl.exitLoop, state1)
          else if upstreamReadOk = false then
            some ([Event.forwardRequest, Event.respond 502],
              LoopControl.exitLoop, state1)
          else
            some ([Event.forwardRequest, Event.relayResponse],
              LoopControl.nextRequest, state1)

/-- Repeated admission calls for one client: the state after `k`
successive `update_rate_and_check` calls for `ip` (`none` once any call
panics). -/
def iterateAdmit (state : ProxyState) (ip : String) : Nat → Option ProxyState
  | 0 => some state
  | k + 1 =>
      match iterateAdmit state ip k with
      | none => none
      | some s => (update_rate_and_check s ip).map Prod.snd

/-- The boolean returned by the `k`-th (1-based) `update_rate_and_check`
call for `ip`. -/
def admitResultAt (state : ProxyState) (ip : String) (k : Nat) : Option Bool :=
  match iterateAdmit state ip (k - 1) with
  | none => none
  | some s => (update_rate_and_check s ip).map Prod.fst

theorem ratesGet_ratesSet_self :
    ∀ (rates : List (String × Nat)) (ip : String) (v : Nat),
      (ratesGet rates ip).isSome = true →
      ratesGet (ratesSet rates ip v) ip = some v
  | [], ip, v, h => by simp [ratesGet] at h
  | (k, w) :: rest, ip, v, h => by
      cases hk : k == ip with
      | true => simp [ratesGet, ratesSet, hk]
      | false =>
          simp only [ratesGet, ratesSet, hk, if_false] at h ⊢
          simp only [Bool.false_eq_true, if_false]
          exact ratesGet_ratesSet_self rest ip v h

theorem ratesContains_eq_isSome :
    ∀ (rates : List (String × Nat)) (ip : String),
      ratesContains rates ip = (ratesGet rates ip).isSome
  | [], ip => by simp [ratesContains, ratesGet]
  | (k, w) :: rest, ip => by
      cases hk : k == ip with
      | true => simp [ratesContains, ratesGet, hk]
      | false =>
          simp only [ratesContains, ratesGet, hk, Bool.false_eq_true, if_false]
          exact ratesContains_eq_isSome rest ip

theorem update_rate_and_check_spec (state : ProxyState) (ip : String) (c : Nat)
    (h : ratesGet state.rates ip = some c) :
    update_rate_and_check state ip =
      some ((if c + 1 > state.max_requests_per_minute then false else true),
        { state with rates := ratesSet state.rates ip (c + 1) }) := by
  simp [update_rate_and_check, h]

theorem iterateAdmit_spec (state : ProxyState) (ip : String) (c0 : Nat)
    (h0 : ratesGet state.rates ip = some c0) :
    ∀ k, ∃ s, iterateAdmit state ip k = some s ∧
      ratesGet s.rates ip = some (c0 + k) ∧
      s.max_requests_per_minute = state.max_requests_per_minute := by
  intro k
  induction k with
  | zero => exact ⟨state, rfl, by simpa using h0, rfl⟩
  | succ k ih =>
      obtain ⟨s, hs, hg, hm⟩ := ih
      refine ⟨{ s with rates := ratesSet s.rates ip (c0 + k + 1) }, ?_, ?_, hm⟩
      · simp [iterateAdmit, hs, update_rate_and_check, hg]
      · simpa using ratesGet_ratesSet_self s.rates ip (c0 + k + 1) (by simp [hg])

theorem connect_to_upstream_all_dead (upstreams : List Upstream)
    (steps : List (Nat × Bool)) (h : exist_alive_upstream upstreams = none) :
    connect_to_upstream upstreams steps = some (ConnectResult.err, upstreams) := by
  cases steps with
  | nil => simp [connect_to_upstream, h]
  | cons step rest =>
      obtain ⟨i, c⟩ := step
      simp [connect_to_upstream, h]

theorem connect_to_upstream_ok_alive :
    ∀ (steps : List (Nat × Bool)) (upstreams : List Upstream) (idx : Nat)
      (us' : List Upstream),
      connect_to_upstream upstreams steps = some (ConnectResult.ok idx, us') →
      (us'.get? idx).map Upstream.is_alive = some true := by
  intro steps
  induction steps with
  | nil =>
      intro upstreams idx us' h
      simp only [connect_to_upstream] at h
      split at h
      · simp at h
      · simp at h
  | cons step rest ih =>
      intro upstreams idx us' h
      obtain ⟨i, c⟩ := step
      simp only [connect_to_upstream] at h
      split at h
      · simp at h
      · split at h
        · simp at h
        · rename_i upstream hg
          split at h
          · exact ih upstreams idx us' h
          · split at h
            · rename_i halive hc
              simp only [Option.some.injEq, Prod.mk.injEq,
                ConnectResult.ok.injEq] at h
              obtain ⟨hidx, hus⟩ := h
              subst hidx
              subst hus
              rw [hg]
              simp only [Bool.not_eq_false] at halive
              simp only [Upstream.is_alive] at halive
              simp [Upstream.is_alive, halive]
            · exact ih _ idx us' h

/-- Claim C2: whenever the upstream-selection loop of
`connect_to_upstream` returns a connection, the index it returns points
at an upstream whose alive flag is true in the upstream list as it
stood at the moment of the successful pick (the list returned with the
result); and when zero upstreams are flagged alive it returns the
all-upstreams-down error instead of an upstream. -/
theorem connect_selects_only_alive (upstreams : List Upstream)
    (steps : List (Nat × Bool)) :
    (∀ idx us',
      connect_to_upstream upstreams steps = some (ConnectResult.ok idx, us') →
      (us'.get? idx).map Upstream.is_alive = some true) ∧
    (exist_alive_upstream upstreams = none →
      connect_to_upstream upstreams steps = some (ConnectResult.err, upstreams)) :=
  ⟨fun idx us' h => connect_to_upstream_ok_alive steps upstreams idx us' h,
   fun h => connect_to_upstream_all_dead upstreams steps h⟩

/-- Witness for C2: with a live first upstream and a dead second one,
the RNG first drawing the dead index retries and the selection lands on
the live index 0; with a single dead upstream the selection reports the
all-upstreams-down error. -/
theorem connect_selects_only_alive_witness :
    (([Upstream.new "u1",
        Upstream.set_alive (Upstream.new "u2") false].get? 0).map
      Upstream.is_alive = some true) ∧
    connect_to_upstream [Upstream.set_alive (Upstream.new "u") false] [] =
      some (ConnectResult.err, [Upstream.set_alive (Upstream.new "u") false]) :=
  ⟨(connect_selects_only_alive
      [Upstream.new "u1", Upstream.set_alive (Upstream.new "u2") false]
      [(1, true), (0, true)]).1 0
      [Upstream.new "u1", Upstream.set_alive (Upstream.new "u2") false]
      (by decide),
   (connect_selects_only_alive
      [Upstream.set_alive (Upstream.new "u") false] []).2 (by decide)⟩

theorem active_health_check_cycle_get :
    ∀ (upstreams : List Upstream) (outcomes : List ProbeOutcome) (i : Nat)
      (u : Upstream) (o : ProbeOutcome),
      upstreams.get? i = some u → outcomes.get? i = some o →
      (active_health_check_cycle upstreams outcomes).get? i =
        some (u.set_alive (probe_mark o))
  | [], outcomes, i, u, o, hu, ho => by
      rw [List.get?_nil] at hu
      cases hu
  | a :: rest, outcomes, i, u, o, hu, ho => by
      cases outcomes with
      | nil =>
          rw [List.get?_nil] at ho
          cases ho
      | cons b obs =>
          cases i with
          | zero =>
              rw [List.get?_cons_zero] at hu ho
              injection hu with hu
              injection ho with ho
              subst hu
              subst ho
              simp [active_health_check_cycle]
          | succ n =>
              rw [List.get?_cons_succ] at hu ho
              have := active_health_check_cycle_get rest obs n u o hu ho
              simpa [active_health_check_cycle, List.get?_cons_succ] using this

/-- Claim C3: one health-check cycle sets the flag of the upstream at
each position from that upstream's probe outcome alone: the result
equals `probe_mark` of the outcome, `probe_mark` marks a status-200
response alive and connect, write and read failures as well as any
non-200 status dead, and the result is unchanged when the upstream's
flag before the cycle is replaced by any other value. -/
theorem health_check_marks_by_probe (upstreams : List Upstream)
    (outcomes : List ProbeOutcome) (i : Nat) (u : Upstream) (o : ProbeOutcome)
    (b : Bool) (hu : upstreams.get? i = some u) (ho : outcomes.get? i = some o) :
    ((active_health_check_cycle upstreams outcomes).get? i).map Upstream.is_alive
      = some (probe_mark o) ∧
    ((active_health_check_cycle (upstreams.set i (u.set_alive b))
        outcomes).get? i).map Upstream.is_alive = some (probe_mark o) ∧
    probe_mark (ProbeOutcome.response 200) = true ∧
    probe_mark ProbeOutcome.connectFailed = false ∧
    probe_mark ProbeOutcome.writeFailed = false ∧
    probe_mark ProbeOutcome.readFailed = false ∧
    (∀ s, s ≠ 200 → probe_mark (ProbeOutcome.response s) = false) := by
  have hlen : i < upstreams.length := by
    by_contra hlen
    push_neg at hlen
    rw [List.get?_eq_none.2 hlen] at hu
    cases hu
  refine ⟨?_, ?_, rfl, rfl, rfl, rfl, ?_⟩
  · rw [active_health_check_cycle_get upstreams outcomes i u o hu ho]
    simp [Upstream.is_alive, Upstream.set_alive]
  · have hu' : (upstreams.set i (u.set_alive b)).get? i = some (u.set_alive b) :=
      List.get?_set_eq_of_lt _ (by simpa using hlen)
    rw [active_health_check_cycle_get _ outcomes i (u.set_alive b) o hu' ho]
    simp [Upstream.is_alive, Upstream.set_alive]
  · intro s hs
    simp [probe_mark, hs]

/-- Witness for C3: a two-upstream cycle where a dead upstream probing
200 comes back alive and a live upstream failing to connect is marked
dead, each independent of the prior flag. -/
theorem health_check_marks_by_probe_witness :
    ((active_health_check_cycle [Upstream.set_alive (Upstream.new "u1") false]
        [ProbeOutcome.response 200]).get? 0).map Upstream.is_alive = some true ∧
    ((active_health_check_cycle [Upstream.new "u2"]
        [ProbeOutcome.connectFailed]).get? 0).map Upstream.is_alive
      = some false :=
  ⟨(health_check_marks_by_probe [Upstream.set_alive (Upstream.new "u1") false]
      [ProbeOutcome.response 200] 0 (Upstream.set_alive (Upstream.new "u1") false)
      (ProbeOutcome.response 200) true rfl rfl).1,
   (health_check_marks_by_probe [Upstream.new "u2"]
      [ProbeOutcome.connectFailed] 0 (Upstream.new "u2")
      ProbeOutcome.connectFailed true rfl rfl).1⟩

/-- Counterexample to C6 as stated: with a single dead upstream, the
error response the connection-setup phase sends has status 502
(`http::StatusCode::BAD_GATEWAY`, main.rs 305), not the 503 the claim
names. -/
theorem all_upstreams_down_counterexample :
    handle_connection_setup ⟨10, "/", 0, [⟨"upstream", false⟩], []⟩ "client" [] =
      some ([Event.respond 502], none,
        ⟨10, "/", 0, [⟨"upstream", false⟩], [("client", 0)]⟩) ∧
    ([Event.respond 502] : List Event) ≠ [Event.respond 503] := by
  decide

/-- Claim C6 (amended): when a newly accepted client connection finds
no upstream flagged alive, the error response surfaced to the client
carries status 502 (bad gateway), and no upstream connection is
obtained. -/
theorem all_upstreams_down_sends_502 (state : ProxyState) (ip : String)
    (steps : List (Nat × Bool))
    (h : exist_alive_upstream state.upstreams = none) :
    handle_connection_setup state ip steps =
      some ([Event.respond 502], none,
        { state with rates := register_client state.rates ip }) := by
  simp only [handle_connection_setup]
  rw [connect_to_upstream_all_dead state.upstreams steps h]

/-- Witness for C6 (amended) at a two-upstream pool with both flags
dead. -/
theorem all_upstreams_down_sends_502_witness :
    handle_connection_setup ⟨10, "/", 0, [⟨"u1", false⟩, ⟨"u2", false⟩], []⟩
        "client" [(0, true)] =
      some ([Event.respond 502], none,
        ⟨10, "/", 0, [⟨"u1", false⟩, ⟨"u2", false⟩], [("client", 0)]⟩) :=
  all_upstreams_down_sends_502 ⟨10, "/", 0, [⟨"u1", false⟩, ⟨"u2", false⟩], []⟩
    "client" [(0, true)] (by decide)

/-- Claim C7: when the rate gate rejects a request, the serving loop
iteration sends exactly a 429 (too-many-requests) response, forwards
nothing to the upstream, and continues to read the next request on the
same connection. -/
theorem rate_limited_request_gets_429 (state state' : ProxyState) (ip : String)
    (w r : Bool) (h : rate_gate state ip = some (false, state')) :
    serve_step state ip ReadResult.ok w r =
      some ([Event.respond 429], LoopControl.nextRequest, state') ∧
    Event.forwardRequest ∉ [Event.respond 429] := by
  constructor
  · simp [serve_step, h]
  · simp

/-- Witness for C7: threshold 1 with a count already at 5 rejects the
request with a 429 and keeps serving. -/
theorem rate_limited_request_gets_429_witness :
    serve_step ⟨10, "/", 1, [], [("c", 5)]⟩ "c" ReadResult.ok true true =
      some ([Event.respond 429], LoopControl.nextRequest,
        ⟨10, "/", 1, [], [("c", 6)]⟩) ∧
    Event.forwardRequest ∉ [Event.respond 429] :=
  rate_limited_request_gets_429 ⟨10, "/", 1, [], [("c", 5)]⟩
    ⟨10, "/", 1, [], [("c", 6)]⟩ "c" true true (by decide)

/-- Claim C8: end-of-stream with no partial data (`IncompleteRequest(0)`)
exits the serving loop with no error response; a partial request, a
malformed request or a content-length defect answers 400 and the loop
continues; an oversized body answers 413 and the loop continues — none
of these tear the connection down. -/
theorem bad_request_recovery (state : ProxyState) (ip : String) (w r : Bool)
    (n : Nat) (hn : 0 < n) :
    serve_step state ip (ReadResult.err (RequestError.incompleteRequest 0)) w r =
      some ([], LoopControl.exitLoop, state) ∧
    serve_step state ip (ReadResult.err (RequestError.incompleteRequest n)) w r =
      some ([Event.respond 400], LoopControl.nextRequest, state) ∧
    serve_step state ip (ReadResult.err RequestError.malformedRequest) w r =
      some ([Event.respond 400], LoopControl.nextRequest, state) ∧
    serve_step state ip (ReadResult.err RequestError.invalidContentLength) w r =
      some ([Event.respond 400], LoopControl.nextRequest, state) ∧
    serve_step state ip (ReadResult.err RequestError.contentLengthMismatch) w r =
      some ([Event.respond 400], LoopControl.nextRequest, state) ∧
    serve_step state ip (ReadResult.err RequestError.requestBodyTooLarge) w r =
      some ([Event.respond 413], LoopControl.nextRequest, state) := by
  obtain ⟨m, rfl⟩ : ∃ m, n = m + 1 := ⟨n - 1, by omega⟩
  exact ⟨rfl, rfl, rfl, rfl, rfl, rfl⟩

/-- Witness for C8 at a concrete state and a one-byte partial request. -/
theorem bad_request_recovery_witness :
    serve_step ⟨10, "/", 0, [], []⟩ "c"
        (ReadResult.err (RequestError.incompleteRequest 0)) true true =
      some ([], LoopControl.exitLoop, ⟨10, "/", 0, [], []⟩) ∧
    serve_step ⟨10, "/", 0, [], []⟩ "c"
        (ReadResult.err (RequestError.incompleteRequest 1)) true true =
      some ([Event.respond 400], LoopControl.nextRequest, ⟨10, "/", 0, [], []⟩) ∧
    serve_step ⟨10, "/", 0, [], []⟩ "c"
        (ReadResult.err RequestError.malformedRequest) true true =
      some ([Event.respond 400], LoopControl.nextRequest, ⟨10, "/", 0, [], []⟩) ∧
    serve_step ⟨10, "/", 0, [], []⟩ "c"
        (ReadResult.err RequestError.invalidContentLength) true true =
      some ([Event.respond 400], LoopControl.nextRequest, ⟨10, "/", 0, [], []⟩) ∧
    serve_step ⟨10, "/", 0, [], []⟩ "c"
        (ReadResult.err RequestError.contentLengthMismatch) true true =
      some ([Event.respond 400], LoopControl.nextRequest, ⟨10, "/", 0, [], []⟩) ∧
    serve_step ⟨10, "/", 0, [], []⟩ "c"
        (ReadResult.err RequestError.requestBodyTooLarge) true true =
      some ([Event.respond 413], LoopControl.nextRequest, ⟨10, "/", 0, [], []⟩) :=
  bad_request_recovery ⟨10, "/", 0, [], []⟩ "c" true true 1 (by decide)

theorem exist_alive_foldl :
    ∀ (l : List Upstream), (∀ u ∈ l, u.is_alive = true) →
      ∀ n, l.foldl (fun cnt u => cnt + (if u.is_alive then 1 else 0)) n
        = n + l.length
  | [], _, n => by simp
  | a :: rest, h, n => by
      have ha : a.is_alive = true := h a (by simp)
      have ih := exist_alive_foldl rest (fun u hu => h u (by simp [hu])) (n + 1)
      simp only [List.foldl, ha, if_true, List.length_cons]
      rw [ih]
      omega

theorem new_vec_all_alive (addrs : List String) :
    ∀ u ∈ Upstream.new_vec addrs, u.is_alive = true := by
  intro u hu
  simp only [Upstream.new_vec, List.mem_map] at hu
  obtain ⟨a, _, rfl⟩ := hu
  rfl

/-- Claim C10: every upstream is created with its flag alive (both
`Upstream::new` and the startup list built by `Upstream::new_vec`), so a
nonempty freshly built pool reports live upstreams to the selection path
regardless of reachability; and the health-check task's trace begins
with a full-interval sleep, so no probe cycle runs before one interval
has elapsed. -/
theorem startup_alive_until_first_probe (addr : String) (addrs : List String)
    (interval n : Nat) (hn : 0 < n) (hne : addrs ≠ []) :
    (Upstream.new addr).is_alive = true ∧
    (∀ u ∈ Upstream.new_vec addrs, u.is_alive = true) ∧
    exist_alive_upstream (Upstream.new_vec addrs) = some addrs.length ∧
    (active_health_check_trace interval n).head? =
      some (HealthEvent.sleep interval) := by
  refine ⟨rfl, new_vec_all_alive addrs, ?_, ?_⟩
  · unfold exist_alive_upstream
    rw [exist_alive_foldl _ (new_vec_all_alive addrs) 0]
    have hlen : (Upstream.new_vec addrs).length = addrs.length := by
      simp [Upstream.new_vec]
    rw [hlen]
    cases haddr : addrs with
    | nil => exact absurd haddr hne
    | cons a rest => simp
  · obtain ⟨m, rfl⟩ : ∃ m, n = m + 1 := ⟨n - 1, by omega⟩
    rfl

/-- Witness for C10: a two-address pool at startup and the first two
iterations of a 7-second health-check task. -/
theorem startup_alive_until_first_probe_witness :
    (Upstream.new "u0").is_alive = true ∧
    (∀ u ∈ Upstream.new_vec ["a", "b"], u.is_alive = true) ∧
    exist_alive_upstream (Upstream.new_vec ["a", "b"]) = some 2 ∧
    (active_health_check_trace 7 2).head? = some (HealthEvent.sleep 7) :=
  startup_alive_until_first_probe "u0" ["a", "b"] 7 2 (by decide) (by decide)

/-- Claim C1: the claim states the window-reset task repeats its
60-second sleep and reset for the life of the process.  The code of
`reset_rates_with_fixed_window` (main.rs 285-290) has no loop: its whole
trace is one 60-second sleep followed by one reset of every count, so
exactly one reset ever happens (the count of reset actions is 1, never
reaching the 2 the second window boundary would need), even though the
single pass does correctly zero every entry. -/
theorem reset_task_resets_only_once :
    reset_rates_with_fixed_window_trace.count RateAction.resetAll = 1 ∧
    ¬ 2 ≤ reset_rates_with_fixed_window_trace.count RateAction.resetAll ∧
    reset_rates_with_fixed_window [("a", 5), ("b", 1)] = [("a", 0), ("b", 0)] := by
  decide

/-- Claim C4: with threshold T > 0 and an existing zero-count entry for
the client IP, the count after `k` admission calls is exactly `k` (each
call adds exactly one), calls 1 through T return `true`, and call T+1
returns `false`. -/
theorem rate_limit_window (state : ProxyState) (ip : String)
    (hT : 0 < state.max_requests_per_minute)
    (h0 : ratesGet state.rates ip = some 0) :
    (∀ k, ∃ s, iterateAdmit state ip k = some s ∧ ratesGet s.rates ip = some k) ∧
    (∀ k, 1 ≤ k → k ≤ state.max_requests_per_minute →
      admitResultAt state ip k = some true) ∧
    admitResultAt state ip (state.max_requests_per_minute + 1) = some false := by
  refine ⟨?_, ?_, ?_⟩
  · intro k
    obtain ⟨s, hs, hg, hm⟩ := iterateAdmit_spec state ip 0 h0 k
    exact ⟨s, hs, by simpa using hg⟩
  · intro k hk1 hkT
    obtain ⟨s, hs, hg, hm⟩ := iterateAdmit_spec state ip 0 h0 (k - 1)
    have hg' : ratesGet s.rates ip = some (k - 1) := by simpa using hg
    unfold admitResultAt
    rw [hs]
    show (update_rate_and_check s ip).map Prod.fst = some true
    rw [update_rate_and_check_spec s ip (k - 1) hg']
    have hle : ¬ k - 1 + 1 > s.max_requests_per_minute := by omega
    simp [hle]
  · obtain ⟨s, hs, hg, hm⟩ :=
      iterateAdmit_spec state ip 0 h0 (state.max_requests_per_minute + 1 - 1)
    have hg' : ratesGet s.rates ip = some state.max_requests_per_minute := by
      simpa using hg
    unfold admitResultAt
    rw [hs]
    show (update_rate_and_check s ip).map Prod.fst = some false
    rw [update_rate_and_check_spec s ip state.max_requests_per_minute hg']
    have hgt : state.max_requests_per_minute + 1 > s.max_requests_per_minute := by
      omega
    simp [hgt]

/-- Witness for C4 at threshold 2 and a fresh zero-count entry: the
first and second calls are admitted, the third is rejected. -/
theorem rate_limit_window_witness :
    admitResultAt ⟨10, "/", 2, [], [("c", 0)]⟩ "c" 1 = some true ∧
    admitResultAt ⟨10, "/", 2, [], [("c", 0)]⟩ "c" 2 = some true ∧
    admitResultAt ⟨10, "/", 2, [], [("c", 0)]⟩ "c" 3 = some false :=
  ⟨(rate_limit_window ⟨10, "/", 2, [], [("c", 0)]⟩ "c" (by decide) (by decide)).2.1
      1 (by decide) (by decide),
   (rate_limit_window ⟨10, "/", 2, [], [("c", 0)]⟩ "c" (by decide) (by decide)).2.1
      2 (by decide) (by decide),
   (rate_limit_window ⟨10, "/", 2, [], [("c", 0)]⟩ "c" (by decide) (by decide)).2.2⟩

/-- Claim C5: with threshold 0 the rate gate of `handle_connection`
short-circuits before calling the limiter, so every request is admitted
and the state (in particular the rate map) is returned unchanged. -/
theorem threshold_zero_always_admits (state : ProxyState) (ip : String)
    (h : state.max_requests_per_minute = 0) :
    rate_gate state ip = some (true, state) := by
  simp [rate_gate, h]

/-- Witness for C5: a client that already made 99 requests is still
admitted with the state unchanged when the threshold is 0. -/
theorem threshold_zero_always_admits_witness :
    rate_gate ⟨10, "/", 0, [], [("c", 99)]⟩ "c" =
      some (true, ⟨10, "/", 0, [], [("c", 99)]⟩) :=
  threshold_zero_always_admits ⟨10, "/", 0, [], [("c", 99)]⟩ "c" rfl

/-- Claim C9: `update_rate_and_check` panics (models to `none`) exactly
when the client IP has no rate-map entry, so the panic branch is
reachable for an unregistered IP; and whenever the state's rate map was
produced by the `register_client` step `handle_connection` runs before
its serving loop, the lookup succeeds and the panic is unreachable. -/
theorem admit_requires_registered_entry (state : ProxyState) (ip : String) :
    (ratesGet state.rates ip = none → update_rate_and_check state ip = none) ∧
    (∀ rates0, state.rates = register_client rates0 ip →
      (update_rate_and_check state ip).isSome = true) := by
  constructor
  · intro h
    simp [update_rate_and_check, h]
  · intro rates0 hr
    have hsome : (ratesGet state.rates ip).isSome = true := by
      rw [hr]
      unfold register_client
      cases hc : ratesContains rates0 ip with
      | true =>
          simp only [if_true]
          rw [ratesContains_eq_isSome] at hc
          exact hc
      | false =>
          simp [ratesGet]
    obtain ⟨c, hc⟩ := Option.isSome_iff_exists.mp hsome
    simp [update_rate_and_check, hc]

/-- Witness for C9: with an empty rate map the admission call for an
unregistered IP hits the panic branch; after `register_client` it does
not. -/
theorem admit_requires_registered_entry_witness :
    update_rate_and_check ⟨10, "/", 5, [], []⟩ "c" = none ∧
    (update_rate_and_check ⟨10, "/", 5, [], register_client [] "c"⟩ "c").isSome
      = true :=
  ⟨(admit_requires_registered_entry ⟨10, "/", 5, [], []⟩ "c").1 rfl,
   (admit_requires_registered_entry
      ⟨10, "/", 5, [], register_client [] "c"⟩ "c").2 [] rfl⟩

end Balancebeam
